import Mathlib

/-!
Verification development for the Counter.ink token-swap escrow contract.

The repository holds two variants of the contract:

* `PF` — the incremental partial-fill variant (src/SmartContract/lib.rs):
  typed errors (`Error`), a `Mapping<u64, Swap>` registry, cumulative
  `accepted_a` / `accepted_b` counters, an optional `allowed_acceptor`,
  and an optional delegate contract for creation.

* `SS` — the single-shot variant (src/lib.rs): assert/expect (panic)
  signaling, a `BTreeMap<Hash, Swap>` registry keyed by a hash derived
  injectively from the monotonic counter, no partial fills.

Account identities, token-contract identities and hashes are modelled as
natural numbers (only equality on them matters to the contract logic).
`Balance` is u128 and `BlockNumber` is u32 in the ink `DefaultEnvironment`;
they are modelled as `Nat`, with the source's `checked_add` calls modelled
by explicit bound checks at the relevant widths.  Cross-contract calls are
modelled by an environment record: the host decides the outcome of each
sub-call (dispatch failure, callee-level failure, or success), and every
operation also returns the list of transfer sub-calls it issued and the
events it emitted, so that custody movement and event emission are
observable in theorems.
-/

/-- `get` on a keyed store modelled as an association list (the ink
`Mapping<u64, _>` of the partial-fill variant and the `BTreeMap<Hash, _>`
of the single-shot variant expose the same get/insert/remove/contains
surface). -/
def aGet {α : Type} (m : List (Nat × α)) (k : Nat) : Option α :=
  match m with
  | [] => none
  | (k2, v) :: rest => if k2 = k then some v else aGet rest k

/-- `contains` on the keyed store. -/
def aContains {α : Type} (m : List (Nat × α)) (k : Nat) : Bool :=
  (aGet m k).isSome

/-- `remove` on the keyed store. -/
def aRemove {α : Type} (m : List (Nat × α)) (k : Nat) : List (Nat × α) :=
  match m with
  | [] => []
  | (k2, v) :: rest => if k2 = k then aRemove rest k else (k2, v) :: aRemove rest k

/-- `insert` on the keyed store (overwrites any previous binding). -/
def aInsert {α : Type} (m : List (Nat × α)) (k : Nat) (v : α) : List (Nat × α) :=
  (k, v) :: aRemove m k

namespace PF

/-- Account identifier (opaque; only equality is used by the contract). -/
abbrev AccountId := Nat

/-- u128 token magnitude. -/
abbrev Balance := Nat

/-- u32 block counter of the ink DefaultEnvironment. -/
abbrev BlockNumber := Nat

/-- The `Swap` positional tuple of src/SmartContract/lib.rs, with the
fields named in source order: (creator, token_a, token_b, amount_a,
amount_b, expiration, accepted_a, accepted_b, allowed_acceptor). -/
structure Swap where
  creator : AccountId
  token_a : AccountId
  token_b : AccountId
  amount_a : Balance
  amount_b : Balance
  expiration : BlockNumber
  accepted_a : Balance
  accepted_b : Balance
  allowed_acceptor : Option AccountId
deriving DecidableEq, Repr

/-- The `Error` enum of src/SmartContract/lib.rs. -/
inductive Error where
  | SwapNotFound
  | InsufficientBalance
  | Unauthorized
  | SwapExpired
  | TransferFailed
  | CallFailed
  | DelegateFailed
  | DelegateFunctionFailed
deriving DecidableEq, Repr

/-- `Result<T> = core::result::Result<T, Error>`. -/
inductive CResult (α : Type) where
  | ok (val : α)
  | err (e : Error)
deriving DecidableEq, Repr

/-- Outcome of one cross-contract `try_invoke`:
`dispatch_error` is the outer `Err(ink_env::Error)` (the sub-call could
not be dispatched/executed), `lang_error` is `Ok(Err(LangError))` (the
sub-call executed but the callee-side dispatch rejected it), and `ok` is
`Ok(Ok(value))`. -/
inductive CallOutcome (α : Type) where
  | dispatch_error
  | lang_error
  | ok (val : α)
deriving DecidableEq, Repr

/-- A transfer sub-call issued by the contract, with the token contract
called and the (from, to, amount) arguments pushed. -/
structure Transfer where
  token : AccountId
  src : AccountId
  dst : AccountId
  amount : Balance
deriving DecidableEq, Repr

/-- The contract's events. -/
inductive Event where
  | SwapCreated (id : Nat) (creator : AccountId)
  | SwapAccepted (id : Nat) (acceptor : AccountId)
  | SwapDeleted (id : Nat)
deriving DecidableEq, Repr

/-- The host environment of one message call: the caller, the block
number, the contract's own account id, and the outcome the host gives to
each cross-contract sub-call (balance queries, transfers, and the
delegate forwarding call). -/
structure Env where
  caller : AccountId
  block_number : BlockNumber
  contract_account : AccountId
  balance_of : AccountId → AccountId → CallOutcome Balance
  transfer : AccountId → AccountId → AccountId → Balance → CallOutcome Unit
  delegate_call : CallOutcome Unit

/-- The `Mapping<u64, Swap>` registry, as an association list. -/
abbrev SwapMap := List (Nat × Swap)

/-- The `TokenSwap` storage struct of src/SmartContract/lib.rs. -/
structure TokenSwap where
  swaps : SwapMap
  swap_count : Nat
  delegated_contract : Option AccountId
  owner : AccountId
deriving DecidableEq, Repr

/-- Result of running one message: the returned `Result`, the storage
afterwards, the transfer sub-calls issued (in order), and the events
emitted (in order). -/
structure Outcome (α : Type) where
  result : CResult α
  state : TokenSwap
  transfers : List Transfer
  events : List Event
deriving DecidableEq, Repr

/-- `checked_add` at machine width `w` bits: `some (a + b)` when the sum
fits, `none` on overflow. -/
def checkedAdd (w : Nat) (a b : Nat) : Option Nat :=
  if a + b < 2 ^ w then some (a + b) else none

/-- `get_balance` of src/SmartContract/lib.rs lines 88-108: a
`balance_of` sub-call on `token_contract` for `account`;
`Ok(Ok(balance))` yields the balance, `Ok(Err(_))` yields
`InsufficientBalance`, `Err(_)` yields `CallFailed`. -/
def get_balance (env : Env) (token_contract account : AccountId) : CResult Balance :=
  match env.balance_of token_contract account with
  | .ok b => .ok b
  | .lang_error => .err .InsufficientBalance
  | .dispatch_error => .err .CallFailed

/-- `transfer_token` of src/SmartContract/lib.rs lines 214-242: a
`transfer` sub-call on `token_contract` with arguments (from, to,
amount); `Ok(Ok(()))` is success, `Ok(Err(_))` yields `TransferFailed`,
`Err(_)` yields `CallFailed`. -/
def transfer_token (env : Env) (token_contract fromAcct toAcct : AccountId)
    (amount : Balance) : CResult Unit :=
  match env.transfer token_contract fromAcct toAcct amount with
  | .ok _ => .ok ()
  | .lang_error => .err .TransferFailed
  | .dispatch_error => .err .CallFailed

/-- `create_swap` of src/SmartContract/lib.rs lines 110-192.  When a
delegate contract is configured the whole request is forwarded to the
delegate's `create_swap_delegate` entry point and the local state is
untouched; otherwise the creator's balances of both tokens are queried,
`amount_a` of `token_a` is pulled from the creator into the contract's
own account, `expiration = block_number + duration` is computed with
`checked_add` (u32), the record is stored at key `swap_count`, and
`swap_count` is incremented with `checked_add` (u64).  Note that in the
source the record is inserted before `swap_count` is incremented, so on
u64 counter overflow the insert has already happened when `CallFailed`
is returned. -/
def create_swap (st : TokenSwap) (env : Env) (token_a token_b : AccountId)
    (amount_a amount_b : Balance) (duration : Nat)
    (allowed_acceptor : Option AccountId) : Outcome Nat :=
  match st.delegated_contract with
  | some _delegate =>
    match env.delegate_call with
    | .ok _ => ⟨.ok st.swap_count, st, [], []⟩
    | .lang_error => ⟨.err .DelegateFunctionFailed, st, [], []⟩
    | .dispatch_error => ⟨.err .DelegateFailed, st, [], []⟩
  | none =>
    match get_balance env token_a env.caller with
    | .err e => ⟨.err e, st, [], []⟩
    | .ok balance_a =>
      if balance_a < amount_a then ⟨.err .InsufficientBalance, st, [], []⟩
      else
        match get_balance env token_b env.caller with
        | .err e => ⟨.err e, st, [], []⟩
        | .ok balance_b =>
          if balance_b < amount_b then ⟨.err .InsufficientBalance, st, [], []⟩
          else
            match transfer_token env token_a env.caller env.contract_account amount_a with
            | .err e =>
              ⟨.err e, st, [⟨token_a, env.caller, env.contract_account, amount_a⟩], []⟩
            | .ok _ =>
              match checkedAdd 32 env.block_number duration with
              | none =>
                ⟨.err .CallFailed, st,
                  [⟨token_a, env.caller, env.contract_account, amount_a⟩], []⟩
              | some expiration =>
                match checkedAdd 64 st.swap_count 1 with
                | none =>
                  ⟨.err .CallFailed,
                    { st with
                      swaps := (aInsert st.swaps st.swap_count
                          ⟨env.caller, token_a, token_b, amount_a, amount_b,
                            expiration, 0, 0, allowed_acceptor⟩) },
                    [⟨token_a, env.caller, env.contract_account, amount_a⟩], []⟩
                | some count1 =>
                  ⟨.ok st.swap_count,
                    { st with
                      swaps := (aInsert st.swaps st.swap_count
                          ⟨env.caller, token_a, token_b, amount_a, amount_b,
                            expiration, 0, 0, allowed_acceptor⟩),
                      swap_count := count1 },
                    [⟨token_a, env.caller, env.contract_account, amount_a⟩],
                    [.SwapCreated st.swap_count env.caller]⟩

/-- `delete_swap` of src/SmartContract/lib.rs lines 194-212: fails
`SwapNotFound` when the id is absent, `Unauthorized` when the caller is
not the record's creator, otherwise removes the record and emits
`SwapDeleted`.  The source performs no token transfer on this path. -/
def delete_swap (st : TokenSwap) (env : Env) (swap_id : Nat) : Outcome Unit :=
  match aGet st.swaps swap_id with
  | none => ⟨.err .SwapNotFound, st, [], []⟩
  | some swap_data =>
    if env.caller ≠ swap_data.creator then ⟨.err .Unauthorized, st, [], []⟩
    else
      ⟨.ok (), { st with swaps := aRemove st.swaps swap_id }, [],
        [.SwapDeleted swap_id]⟩

/-- The `allowed_acceptor` guard inside `accept_swap` (lines 266-270):
when the record restricts the acceptor, a different caller is rejected. -/
def acceptorForbidden (s : Swap) (caller : AccountId) : Bool :=
  match s.allowed_acceptor with
  | some aa => decide (caller ≠ aa)
  | none => false

/-- `accept_swap` of src/SmartContract/lib.rs lines 244-305: looks the
record up (`SwapNotFound`), checks the optional allowed acceptor
(`Unauthorized`), checks expiry (`SwapExpired` when
`block_number > expiration`), checks the cumulative fill bounds
(`InsufficientBalance` when `amount_a + accepted_a > required_a` or
`amount_b + accepted_b > required_b`), then issues the two transfer
sub-calls — both from the caller to the creator — and only afterwards
writes back the record with the incremented counters and emits
`SwapAccepted`. -/
def accept_swap (st : TokenSwap) (env : Env) (swap_id : Nat)
    (amount_a amount_b : Balance) : Outcome Unit :=
  match aGet st.swaps swap_id with
  | none => ⟨.err .SwapNotFound, st, [], []⟩
  | some s =>
    if acceptorForbidden s env.caller then
      ⟨.err .Unauthorized, st, [], []⟩
    else if s.expiration < env.block_number then
      ⟨.err .SwapExpired, st, [], []⟩
    else if s.amount_a < amount_a + s.accepted_a ∨
        s.amount_b < amount_b + s.accepted_b then
      ⟨.err .InsufficientBalance, st, [], []⟩
    else
      match transfer_token env s.token_a env.caller s.creator amount_a with
      | .err e => ⟨.err e, st, [⟨s.token_a, env.caller, s.creator, amount_a⟩], []⟩
      | .ok _ =>
        match transfer_token env s.token_b env.caller s.creator amount_b with
        | .err e =>
          ⟨.err e, st,
            [⟨s.token_a, env.caller, s.creator, amount_a⟩,
              ⟨s.token_b, env.caller, s.creator, amount_b⟩], []⟩
        | .ok _ =>
          ⟨.ok (),
            { st with
              swaps := (aInsert st.swaps swap_id
                  { s with
                    accepted_a := s.accepted_a + amount_a,
                    accepted_b := s.accepted_b + amount_b }) },
            [⟨s.token_a, env.caller, s.creator, amount_a⟩,
              ⟨s.token_b, env.caller, s.creator, amount_b⟩],
            [.SwapAccepted swap_id env.caller]⟩

/-- `set_delegated_contract` of src/SmartContract/lib.rs lines 79-86: a
non-owner caller is silently ignored (a debug print, no typed error);
the owner sets the delegate pointer. -/
def set_delegated_contract (st : TokenSwap) (env : Env) (contract : AccountId) :
    TokenSwap :=
  if env.caller ≠ st.owner then st
  else { st with delegated_contract := some contract }

/-- The partial-fill bound invariant on one record:
`accepted_a ≤ amount_a` and `accepted_b ≤ amount_b`. -/
def fillInv (s : Swap) : Prop :=
  s.accepted_a ≤ s.amount_a ∧ s.accepted_b ≤ s.amount_b

/-- The states the partial-fill contract can reach: the constructor's
initial state followed by any sequence of its four mutating messages. -/
inductive Reachable : TokenSwap → Prop where
  | init (owner : AccountId) : Reachable ⟨[], 0, none, owner⟩
  | create (st : TokenSwap) (env : Env) (token_a token_b : AccountId)
      (amount_a amount_b : Balance) (duration : Nat)
      (allowed_acceptor : Option AccountId) : Reachable st →
      Reachable (create_swap st env token_a token_b amount_a amount_b
        duration allowed_acceptor).state
  | accept (st : TokenSwap) (env : Env) (swap_id : Nat)
      (amount_a amount_b : Balance) : Reachable st →
      Reachable (accept_swap st env swap_id amount_a amount_b).state
  | delete (st : TokenSwap) (env : Env) (swap_id : Nat) : Reachable st →
      Reachable (delete_swap st env swap_id).state
  | set_delegated (st : TokenSwap) (env : Env) (contract : AccountId) :
      Reachable st → Reachable (set_delegated_contract st env contract)

end PF

namespace SS

/-- Account identifier of the single-shot variant. -/
abbrev AccountId := Nat

/-- u128 token magnitude. -/
abbrev Balance := Nat

/-- u64 block timestamp of the ink DefaultEnvironment. -/
abbrev Timestamp := Nat

/-- The named `Swap` struct of src/lib.rs. -/
structure Swap where
  creator : AccountId
  token_a : AccountId
  token_b : AccountId
  amount_a : Balance
  amount_b : Balance
  expiration : Timestamp
deriving DecidableEq, Repr

/-- The `BTreeMap<Hash, Swap>` registry.  The source derives each key
`Hash` injectively from `swap_count` (the counter's big-endian bytes are
the hash prefix), so keys are modelled by the counter value they encode. -/
abbrev SwapMap := List (Nat × Swap)

/-- The `TokenSwap` storage struct of src/lib.rs. -/
structure State where
  swaps : SwapMap
  swap_count : Nat
deriving DecidableEq, Repr

/-- A cross-contract sub-call issued by the single-shot variant: a
`balance_of` query, or a `transfer_from` with the exact arguments the
source pushes. -/
inductive CallDesc where
  | balanceOf (token account : AccountId)
  | transferFrom (token src dst : AccountId) (amount : Balance)
deriving DecidableEq, Repr

/-- A sub-call paired with the snapshot of the swaps registry at the
moment the sub-call is issued (used to settle the ordering of registry
mutation versus external calls). -/
structure CallStep where
  desc : CallDesc
  registry : SwapMap
deriving DecidableEq, Repr

/-- The single-shot variant signals failure by `assert!` / `expect`
(a panic that traps the whole call) instead of a typed `Result`. -/
inductive PanicOr (α : Type) where
  | ok (val : α)
  | panicked (msg : String)
deriving DecidableEq, Repr

/-- The host environment of one message call in the single-shot variant.
`balance_of token account = none` models a `balance_of` sub-call whose
`.fire()` fails (the source consumes that with `unwrap_or_default()`). -/
structure Env where
  caller : AccountId
  block_timestamp : Timestamp
  balance_of : AccountId → AccountId → Option Balance

/-- Result of running one message of the single-shot variant: the value
or panic, the storage afterwards, and the sub-calls issued (in order),
each with its registry snapshot. -/
structure Run (α : Type) where
  result : PanicOr α
  state : State
  calls : List CallStep
deriving DecidableEq, Repr

/-- `create_swap` of src/lib.rs lines 40-85: queries the creator's
balance of `token_a` with `unwrap_or_default()` (a failed sub-call
counts as balance 0), asserts it covers `amount_a` (panicking
otherwise), then stores the record keyed by the hash of `swap_count`,
increments the counter and returns the key.  No escrow transfer is
issued on this path, and `expiration = block_timestamp + duration` is an
unchecked u64 addition. -/
def create_swap (st : State) (env : Env) (token_a token_b : AccountId)
    (amount_a amount_b : Balance) (duration : Nat) : Run Nat :=
  if (env.balance_of token_a env.caller).getD 0 < amount_a then
    ⟨.panicked "Insufficient balance for token A", st,
      [⟨.balanceOf token_a env.caller, st.swaps⟩]⟩
  else
    ⟨.ok st.swap_count,
      { swaps := (aInsert st.swaps st.swap_count
            ⟨env.caller, token_a, token_b, amount_a, amount_b,
              env.block_timestamp + duration⟩),
        swap_count := st.swap_count + 1 },
      [⟨.balanceOf token_a env.caller, st.swaps⟩]⟩

/-- `delete_swap` of src/lib.rs lines 87-100: `expect` panics when the
id is absent, an `assert!` enforces that only the creator deletes, and
the record is removed.  No transfer is issued. -/
def delete_swap (st : State) (env : Env) (swap_id : Nat) : Run Unit :=
  match aGet st.swaps swap_id with
  | none => ⟨.panicked "Swap not found", st, []⟩
  | some swap =>
    if env.caller ≠ swap.creator then
      ⟨.panicked "Only the creator of the swap can delete it.", st, []⟩
    else
      ⟨.ok (), { st with swaps := aRemove st.swaps swap_id }, []⟩

/-- `accept_swap` of src/lib.rs lines 102-182: `expect` panics when the
id is absent; the acceptor's balances of `token_b` then `token_a` are
queried with `unwrap_or_default()` and asserted to cover the swap
amounts (the source's second assertion writes the out-of-scope name
`amount_a`, whose evident referent is `swap.amount_a`); expiry is
asserted (`block_timestamp ≤ expiration`); the two `transfer_from`
sub-calls are issued with their results discarded
(`unwrap_or_default()`), and only then is the record removed — the
destination argument pushed for each leg is the other token's contract
account, exactly as in the source. -/
def accept_swap (st : State) (env : Env) (swap_id : Nat) : Run Unit :=
  match aGet st.swaps swap_id with
  | none => ⟨.panicked "Swap not found", st, []⟩
  | some swap =>
    if (env.balance_of swap.token_b env.caller).getD 0 < swap.amount_b then
      ⟨.panicked "Insufficient balance for token B", st,
        [⟨.balanceOf swap.token_b env.caller, st.swaps⟩]⟩
    else if (env.balance_of swap.token_a env.caller).getD 0 < swap.amount_a then
      ⟨.panicked "Insufficient balance for token A", st,
        [⟨.balanceOf swap.token_b env.caller, st.swaps⟩,
          ⟨.balanceOf swap.token_a env.caller, st.swaps⟩]⟩
    else if swap.expiration < env.block_timestamp then
      ⟨.panicked "Swap has already expired", st,
        [⟨.balanceOf swap.token_b env.caller, st.swaps⟩,
          ⟨.balanceOf swap.token_a env.caller, st.swaps⟩]⟩
    else
      ⟨.ok (), { st with swaps := aRemove st.swaps swap_id },
        [⟨.balanceOf swap.token_b env.caller, st.swaps⟩,
          ⟨.balanceOf swap.token_a env.caller, st.swaps⟩,
          ⟨.transferFrom swap.token_a env.caller swap.token_b swap.amount_a,
            st.swaps⟩,
          ⟨.transferFrom swap.token_b env.caller swap.token_a swap.amount_b,
            st.swaps⟩]⟩

end SS

namespace PF

/-- All records stored in the registry satisfy the fill bounds. -/
def stateInv (st : TokenSwap) : Prop :=
  ∀ k s, aGet st.swaps k = some s → fillInv s

end PF

/-- Concrete creator-side environment: caller 1 (the creator), block 0,
the contract's own account is 9, every balance query answers 1000,
every transfer succeeds. -/
def wEnvC : PF.Env :=
  ⟨1, 0, 9, fun _ _ => .ok 1000, fun _ _ _ _ => .ok (), .dispatch_error⟩

/-- Concrete acceptor-side environment: caller 4, block 5, same host
behavior as `wEnvC`. -/
def wEnvA : PF.Env :=
  ⟨4, 5, 9, fun _ _ => .ok 1000, fun _ _ _ _ => .ok (), .dispatch_error⟩

/-- The constructor's state with owner 1. -/
def wSt0 : PF.TokenSwap := ⟨[], 0, none, 1⟩

/-- Creator 1 offers 50 of token 2 for 100 of token 3, duration 10,
no allowed-acceptor restriction. -/
def wCreate : PF.Outcome Nat := PF.create_swap wSt0 wEnvC 2 3 50 100 10 none

/-- The state holding the freshly created swap 0. -/
def wSt1 : PF.TokenSwap := wCreate.state

/-- Creator 1 deletes swap 0. -/
def wDelete : PF.Outcome Unit := PF.delete_swap wSt1 wEnvC 0

/-- Acceptor 4 fills swap 0 completely (50 / 100). -/
def wAccept : PF.Outcome Unit := PF.accept_swap wSt1 wEnvA 0 50 100

/-- Single-shot variant: a registry holding swap 0 (creator 1, 50 of
token 2 for 100 of token 3, expiring at 10) and counter 1. -/
def wStS : SS.State := ⟨[(0, ⟨1, 2, 3, 50, 100, 10⟩)], 1⟩

/-- Single-shot acceptor environment: caller 4, timestamp 5, every
balance query answers 1000. -/
def wEnvS : SS.Env := ⟨4, 5, fun _ _ => some 1000⟩

/-- Creator-side environment whose balance query answers only 30. -/
def wEnvPoor : PF.Env :=
  ⟨1, 0, 9, fun _ _ => .ok 30, fun _ _ _ _ => .ok (), .dispatch_error⟩

/-- Environment whose balance queries fail to dispatch and whose
transfer sub-calls execute but are rejected by the callee. -/
def wEnvMix : PF.Env :=
  ⟨1, 0, 9, fun _ _ => .dispatch_error, fun _ _ _ _ => .lang_error, .ok ()⟩

/-- A storage state with delegate contract 5 configured and counter 7. -/
def wStD : PF.TokenSwap := ⟨[], 7, some 5, 1⟩

/-- Acceptor-side environment where transfers on token 2 succeed but the
callee rejects transfers on any other token. -/
def wEnvHalf : PF.Env :=
  ⟨4, 5, 9, fun _ _ => .ok 1000,
    fun t _ _ _ => if t = 2 then .ok () else .lang_error, .dispatch_error⟩

/-- Single-shot environment whose balance queries all fail to execute. -/
def wEnvNoneBal : SS.Env := ⟨4, 5, fun _ _ => none⟩

/-- Store lemma: looking a key up right after inserting it yields the
inserted value. -/
theorem aGet_insert_self {α : Type} (m : List (Nat × α)) (k : Nat) (v : α) :
    aGet (aInsert m k v) k = some v := by
  simp [aInsert, aGet]

/-- Store lemma: removing one key leaves lookups of another key alone. -/
theorem aGet_remove_ne {α : Type} (m : List (Nat × α)) (k k2 : Nat)
    (h : k2 ≠ k) : aGet (aRemove m k) k2 = aGet m k2 := by
  induction m with
  | nil => rfl
  | cons p rest ih =>
    obtain ⟨pk, pv⟩ := p
    by_cases hp : pk = k
    · subst hp
      simp [aRemove, aGet, ih, Ne.symm h]
    · simp [aRemove, aGet, hp, ih]

/-- Store lemma: a removed key is absent. -/
theorem aGet_remove_self {α : Type} (m : List (Nat × α)) (k : Nat) :
    aGet (aRemove m k) k = none := by
  induction m with
  | nil => rfl
  | cons p rest ih =>
    obtain ⟨pk, pv⟩ := p
    by_cases hp : pk = k
    · simpa [aRemove, hp] using ih
    · simp [aRemove, aGet, hp, ih]

/-- Store lemma: inserting one key leaves lookups of another key alone. -/
theorem aGet_insert_ne {α : Type} (m : List (Nat × α)) (k k2 : Nat) (v : α)
    (h : k2 ≠ k) : aGet (aInsert m k v) k2 = aGet m k2 := by
  simp [aInsert, aGet, Ne.symm h, aGet_remove_ne m k k2 h]

/-- Store lemma: a lookup that succeeds after an insert hit either the
inserted value or a pre-existing binding of a different key. -/
theorem aGet_insert_cases {α : Type} {m : List (Nat × α)} {k k2 : Nat}
    {v s : α} (h : aGet (aInsert m k v) k2 = some s) :
    (k2 = k ∧ s = v) ∨ (k2 ≠ k ∧ aGet m k2 = some s) := by
  by_cases hk : k2 = k
  · subst hk
    rw [aGet_insert_self] at h
    exact Or.inl ⟨rfl, (Option.some.inj h).symm⟩
  · rw [aGet_insert_ne m k k2 v hk] at h
    exact Or.inr ⟨hk, h⟩

/-- Store lemma: a lookup that succeeds after a removal already
succeeded before it. -/
theorem aGet_remove_some {α : Type} {m : List (Nat × α)} {k k2 : Nat}
    {s : α} (h : aGet (aRemove m k) k2 = some s) : aGet m k2 = some s := by
  by_cases hk : k2 = k
  · subst hk
    rw [aGet_remove_self] at h
    cases h
  · rwa [aGet_remove_ne m k k2 hk] at h

/-- `checked_add` at width `w` succeeds exactly on sums below `2 ^ w`,
and then returns the exact sum. -/
theorem checkedAdd_some {w a b c : Nat} :
    PF.checkedAdd w a b = some c ↔ a + b < 2 ^ w ∧ c = a + b := by
  unfold PF.checkedAdd
  by_cases h : a + b < 2 ^ w
  · simp [h, eq_comm]
  · simp [h]

/-- Case analysis of the partial-fill `accept_swap`: every error path
leaves the storage untouched, and the success path requires a stored
record, a permitted caller, no expiry, both cumulative bounds, and
writes back exactly the record with the two counters incremented. -/
theorem accept_swap_cases (st : PF.TokenSwap) (env : PF.Env) (swap_id : Nat)
    (amount_a amount_b : PF.Balance) :
    ((PF.accept_swap st env swap_id amount_a amount_b).state = st ∧
      ∃ e, (PF.accept_swap st env swap_id amount_a amount_b).result = .err e) ∨
    ((PF.accept_swap st env swap_id amount_a amount_b).result = .ok () ∧
      ∃ s, aGet st.swaps swap_id = some s ∧
        PF.acceptorForbidden s env.caller = false ∧
        env.block_number ≤ s.expiration ∧
        amount_a + s.accepted_a ≤ s.amount_a ∧
        amount_b + s.accepted_b ≤ s.amount_b ∧
        (PF.accept_swap st env swap_id amount_a amount_b).state =
          { st with
            swaps := (aInsert st.swaps swap_id
                { s with
                  accepted_a := s.accepted_a + amount_a,
                  accepted_b := s.accepted_b + amount_b }) }) := by
  unfold PF.accept_swap
  split
  · exact Or.inl ⟨rfl, .SwapNotFound, rfl⟩
  next s hget =>
    split
    · exact Or.inl ⟨rfl, .Unauthorized, rfl⟩
    next hforb =>
      split
      · exact Or.inl ⟨rfl, .SwapExpired, rfl⟩
      next hexp =>
        split
        · exact Or.inl ⟨rfl, .InsufficientBalance, rfl⟩
        next hbound =>
          push_neg at hbound
          split
          next e htr1 => exact Or.inl ⟨rfl, e, rfl⟩
          · split
            next e htr2 => exact Or.inl ⟨rfl, e, rfl⟩
            · refine Or.inr ⟨rfl, s, hget, ?_, ?_, hbound.1, hbound.2, rfl⟩
              · simpa using hforb
              · exact Nat.le_of_not_lt hexp

/-- Case analysis of `create_swap` at the registry level: either the
registry is untouched, or the new record is inserted at key
`swap_count` with both accepted counters 0. -/
theorem create_swap_swaps_cases (st : PF.TokenSwap) (env : PF.Env)
    (ta tb : PF.AccountId) (aa ab : PF.Balance) (dur : Nat)
    (acc : Option PF.AccountId) :
    (PF.create_swap st env ta tb aa ab dur acc).state.swaps = st.swaps ∨
    ∃ v : PF.Swap, v.accepted_a = 0 ∧ v.accepted_b = 0 ∧
      (PF.create_swap st env ta tb aa ab dur acc).state.swaps =
        aInsert st.swaps st.swap_count v := by
  unfold PF.create_swap
  repeat' split
  all_goals first
    | exact Or.inl rfl
    | exact Or.inr ⟨_, rfl, rfl, rfl⟩

/-- Case analysis of `delete_swap` at the registry level: the registry
is untouched or the targeted record is removed. -/
theorem delete_swap_swaps_cases (st : PF.TokenSwap) (env : PF.Env)
    (swap_id : Nat) :
    (PF.delete_swap st env swap_id).state.swaps = st.swaps ∨
    (PF.delete_swap st env swap_id).state.swaps = aRemove st.swaps swap_id := by
  unfold PF.delete_swap
  repeat' split
  all_goals first | exact Or.inl rfl | exact Or.inr rfl

/-- `set_delegated_contract` never touches the registry. -/
theorem set_delegated_swaps (st : PF.TokenSwap) (env : PF.Env)
    (c : PF.AccountId) :
    (PF.set_delegated_contract st env c).swaps = st.swaps := by
  unfold PF.set_delegated_contract
  split <;> rfl

/-- `create_swap` preserves the fill-bound invariant of every stored
record (a fresh record starts with both counters 0). -/
theorem create_preserves_inv (st : PF.TokenSwap) (env : PF.Env)
    (ta tb : PF.AccountId) (aa ab : PF.Balance) (dur : Nat)
    (acc : Option PF.AccountId) (h : PF.stateInv st) :
    PF.stateInv (PF.create_swap st env ta tb aa ab dur acc).state := by
  intro k s hks
  rcases create_swap_swaps_cases st env ta tb aa ab dur acc with
    heq | ⟨v, ha, hb, heq⟩
  · rw [heq] at hks; exact h k s hks
  · rw [heq] at hks
    rcases aGet_insert_cases hks with ⟨_, hs⟩ | ⟨_, hold⟩
    · subst hs
      refine ⟨?_, ?_⟩
      · rw [ha]; exact Nat.zero_le _
      · rw [hb]; exact Nat.zero_le _
    · exact h k s hold

/-- `accept_swap` preserves the fill-bound invariant of every stored
record: the success path only increments the counters within the bounds
it has just checked. -/
theorem accept_preserves_inv (st : PF.TokenSwap) (env : PF.Env)
    (swap_id : Nat) (a b : PF.Balance) (h : PF.stateInv st) :
    PF.stateInv (PF.accept_swap st env swap_id a b).state := by
  intro k s hks
  rcases accept_swap_cases st env swap_id a b with
    ⟨hst, _⟩ | ⟨_, s0, hget, _, _, hba, hbb, hstate⟩
  · rw [hst] at hks; exact h k s hks
  · rw [hstate] at hks
    rcases aGet_insert_cases hks with ⟨hkeq, hs⟩ | ⟨hkne, hold⟩
    · subst hs
      refine ⟨?_, ?_⟩
      · show s0.accepted_a + a ≤ s0.amount_a
        rw [Nat.add_comm]
        exact hba
      · show s0.accepted_b + b ≤ s0.amount_b
        rw [Nat.add_comm]
        exact hbb
    · exact h k s hold

/-- `delete_swap` preserves the fill-bound invariant of every stored
record. -/
theorem delete_preserves_inv (st : PF.TokenSwap) (env : PF.Env)
    (swap_id : Nat) (h : PF.stateInv st) :
    PF.stateInv (PF.delete_swap st env swap_id).state := by
  intro k s hks
  rcases delete_swap_swaps_cases st env swap_id with heq | heq
  · rw [heq] at hks; exact h k s hks
  · rw [heq] at hks; exact h k s (aGet_remove_some hks)

/-- `set_delegated_contract` preserves the fill-bound invariant. -/
theorem set_delegated_preserves_inv (st : PF.TokenSwap) (env : PF.Env)
    (c : PF.AccountId) (h : PF.stateInv st) :
    PF.stateInv (PF.set_delegated_contract st env c) := by
  intro k s hks
  rw [set_delegated_swaps] at hks
  exact h k s hks

/-- Every reachable state of the partial-fill contract satisfies the
fill-bound invariant on all stored records. -/
theorem reachable_stateInv {st : PF.TokenSwap} (h : PF.Reachable st) :
    PF.stateInv st := by
  induction h with
  | init owner => intro k s hks; simp [aGet] at hks
  | create st env ta tb aa ab dur acc _ ih =>
    exact create_preserves_inv st env ta tb aa ab dur acc ih
  | accept st env swap_id a b _ ih =>
    exact accept_preserves_inv st env swap_id a b ih
  | delete st env swap_id _ ih =>
    exact delete_preserves_inv st env swap_id ih
  | set_delegated st env c _ ih =>
    exact set_delegated_preserves_inv st env c ih

/-- Case analysis of `create_swap` with no delegate configured: the call
either returns a typed error, or succeeds returning the pre-call
`swap_count`, increments the counter by exactly 1, and stores the new
record (with `expiration = block_number + duration`, both sums within
their machine widths) at the returned key. -/
theorem create_swap_cases (st : PF.TokenSwap) (env : PF.Env)
    (ta tb : PF.AccountId) (aa ab : PF.Balance) (dur : Nat)
    (acc : Option PF.AccountId) (hdel : st.delegated_contract = none) :
    (∃ e, (PF.create_swap st env ta tb aa ab dur acc).result = .err e) ∨
    ((PF.create_swap st env ta tb aa ab dur acc).result = .ok st.swap_count ∧
      env.block_number + dur < 2 ^ 32 ∧
      st.swap_count + 1 < 2 ^ 64 ∧
      (PF.create_swap st env ta tb aa ab dur acc).state.swap_count =
        st.swap_count + 1 ∧
      (PF.create_swap st env ta tb aa ab dur acc).state.swaps =
        aInsert st.swaps st.swap_count
          ⟨env.caller, ta, tb, aa, ab, env.block_number + dur, 0, 0, acc⟩) := by
  unfold PF.create_swap
  split
  next d heqd =>
    rw [hdel] at heqd
    exact Option.noConfusion heqd
  · split
    next e heq1 => exact Or.inl ⟨e, rfl⟩
    next ba heq1 =>
      split
      · exact Or.inl ⟨.InsufficientBalance, rfl⟩
      · split
        next e heq2 => exact Or.inl ⟨e, rfl⟩
        next bb heq2 =>
          split
          · exact Or.inl ⟨.InsufficientBalance, rfl⟩
          · split
            next e heq3 => exact Or.inl ⟨e, rfl⟩
            · split
              next heq4 => exact Or.inl ⟨.CallFailed, rfl⟩
              next expi heq4 =>
                split
                next heq5 => exact Or.inl ⟨.CallFailed, rfl⟩
                next c1 heq5 =>
                  obtain ⟨h4, hexp⟩ := checkedAdd_some.mp heq4
                  obtain ⟨h5, hc1⟩ := checkedAdd_some.mp heq5
                  subst hexp
                  subst hc1
                  exact Or.inr ⟨rfl, h4, h5, rfl, rfl⟩

/-- C5: with no delegate configured, a `create_swap` whose balance query
for `token_a` succeeds with a balance below `amount_a` returns
`InsufficientBalance`, leaves the whole storage (registry and
`swap_count`) unchanged, and issues no transfer sub-call. -/
theorem C5_create_insufficient_balance (st : PF.TokenSwap) (env : PF.Env)
    (ta tb : PF.AccountId) (aa ab : PF.Balance) (dur : Nat)
    (acc : Option PF.AccountId) (bal : PF.Balance)
    (hdel : st.delegated_contract = none)
    (hbal : env.balance_of ta env.caller = .ok bal)
    (hlt : bal < aa) :
    (PF.create_swap st env ta tb aa ab dur acc).result =
      .err .InsufficientBalance ∧
    (PF.create_swap st env ta tb aa ab dur acc).state = st ∧
    (PF.create_swap st env ta tb aa ab dur acc).transfers = [] := by
  unfold PF.create_swap PF.get_balance
  rw [hdel, hbal]
  simp [hlt]

/-- C6: with no delegate configured, any successful `create_swap`
returns the old `swap_count` as the id, increments `swap_count` by
exactly 1, and stores a record whose expiration is exactly
`block_number + duration`; and when that u32 addition would overflow
(all earlier steps passing), the call fails with the typed error
`CallFailed` instead of wrapping. -/
theorem C6_create_count_and_expiration (st : PF.TokenSwap) (env : PF.Env)
    (ta tb : PF.AccountId) (aa ab : PF.Balance) (dur : Nat)
    (acc : Option PF.AccountId)
    (hdel : st.delegated_contract = none) :
    (∀ id, (PF.create_swap st env ta tb aa ab dur acc).result = .ok id →
      id = st.swap_count ∧
      (PF.create_swap st env ta tb aa ab dur acc).state.swap_count =
        st.swap_count + 1 ∧
      aGet (PF.create_swap st env ta tb aa ab dur acc).state.swaps id =
        some ⟨env.caller, ta, tb, aa, ab, env.block_number + dur, 0, 0, acc⟩) ∧
    (∀ ba bb, env.balance_of ta env.caller = .ok ba → ¬ ba < aa →
      env.balance_of tb env.caller = .ok bb → ¬ bb < ab →
      env.transfer ta env.caller env.contract_account aa = .ok () →
      2 ^ 32 ≤ env.block_number + dur →
      (PF.create_swap st env ta tb aa ab dur acc).result = .err .CallFailed) := by
  constructor
  · intro id hok
    rcases create_swap_cases st env ta tb aa ab dur acc hdel with
      ⟨e, herr⟩ | ⟨hok2, h32, h64, hcount, hswaps⟩
    · rw [herr] at hok
      exact PF.CResult.noConfusion hok
    · obtain rfl : id = st.swap_count :=
        (PF.CResult.ok.inj (hok2.symm.trans hok)).symm
      refine ⟨rfl, hcount, ?_⟩
      rw [hswaps]
      exact aGet_insert_self _ _ _
  · intro ba bb hba hgea hbb hgeb htr hov
    unfold PF.create_swap PF.get_balance PF.transfer_token PF.checkedAdd
    rw [hdel, hba, hbb, htr, if_neg (Nat.not_lt.mpr hov)]
    simp [hgea, hgeb]

/-- C7: the TokenGateway helpers map cross-contract sub-call outcomes as
follows — a dispatch failure surfaces `CallFailed` from both helpers; an
executed-but-rejected sub-call surfaces `InsufficientBalance` from the
balance query and `TransferFailed` from the transfer; a successful
sub-call surfaces its value; and no other error kind is ever produced by
either helper. -/
theorem C7_gateway_error_mapping (env : PF.Env)
    (token acct src dst : PF.AccountId) (amt : PF.Balance) :
    (env.balance_of token acct = .dispatch_error →
      PF.get_balance env token acct = .err .CallFailed) ∧
    (env.balance_of token acct = .lang_error →
      PF.get_balance env token acct = .err .InsufficientBalance) ∧
    (∀ b, env.balance_of token acct = .ok b →
      PF.get_balance env token acct = .ok b) ∧
    (∀ e, PF.get_balance env token acct = .err e →
      e = .CallFailed ∨ e = .InsufficientBalance) ∧
    (env.transfer token src dst amt = .dispatch_error →
      PF.transfer_token env token src dst amt = .err .CallFailed) ∧
    (env.transfer token src dst amt = .lang_error →
      PF.transfer_token env token src dst amt = .err .TransferFailed) ∧
    (∀ u : Unit, env.transfer token src dst amt = .ok u →
      PF.transfer_token env token src dst amt = .ok ()) ∧
    (∀ e, PF.transfer_token env token src dst amt = .err e →
      e = .CallFailed ∨ e = .TransferFailed) := by
  refine ⟨?_, ?_, ?_, ?_, ?_, ?_, ?_, ?_⟩
  · intro h; simp [PF.get_balance, h]
  · intro h; simp [PF.get_balance, h]
  · intro b h; simp [PF.get_balance, h]
  · intro e he
    cases hh : env.balance_of token acct <;>
      simp [PF.get_balance, hh] at he <;>
      simp [he]
  · intro h; simp [PF.transfer_token, h]
  · intro h; simp [PF.transfer_token, h]
  · intro u h; simp [PF.transfer_token, h]
  · intro e he
    cases hh : env.transfer token src dst amt <;>
      simp [PF.transfer_token, hh] at he <;>
      simp [he]

/-- C8: with a delegate configured, `create_swap` runs none of the local
escrow logic — storage, transfers and events are untouched — and maps
the forwarding sub-call's outcome to `DelegateFailed` (not dispatched),
`DelegateFunctionFailed` (delegate reported failure), or success
returning the current (unincremented) `swap_count`, an identifier not
tied to any locally stored record. -/
theorem C8_delegate_forwarding (st : PF.TokenSwap) (env : PF.Env)
    (ta tb : PF.AccountId) (aa ab : PF.Balance) (dur : Nat)
    (acc : Option PF.AccountId) (d : PF.AccountId)
    (hdel : st.delegated_contract = some d) :
    (PF.create_swap st env ta tb aa ab dur acc).state = st ∧
    (PF.create_swap st env ta tb aa ab dur acc).transfers = [] ∧
    (PF.create_swap st env ta tb aa ab dur acc).events = [] ∧
    (env.delegate_call = .dispatch_error →
      (PF.create_swap st env ta tb aa ab dur acc).result =
        .err .DelegateFailed) ∧
    (env.delegate_call = .lang_error →
      (PF.create_swap st env ta tb aa ab dur acc).result =
        .err .DelegateFunctionFailed) ∧
    (∀ u : Unit, env.delegate_call = .ok u →
      (PF.create_swap st env ta tb aa ab dur acc).result =
        .ok st.swap_count) := by
  unfold PF.create_swap
  rw [hdel]
  cases hh : env.delegate_call <;> simp [hh]

/-- C9: whenever the partial-fill `accept_swap` returns an error — on
any of its error paths, including a failure of the second transfer leg
after the first leg's sub-call already succeeded — the entire storage
(the swaps mapping, `swap_count`, and the rest) is left exactly as it
was before the call. -/
theorem C9_accept_error_atomicity (st : PF.TokenSwap) (env : PF.Env)
    (swap_id : Nat) (a b : PF.Balance) (e : PF.Error)
    (h : (PF.accept_swap st env swap_id a b).result = .err e) :
    (PF.accept_swap st env swap_id a b).state = st := by
  rcases accept_swap_cases st env swap_id a b with ⟨hst, _⟩ | ⟨hok, _⟩
  · exact hst
  · rw [hok] at h
    exact PF.CResult.noConfusion h

/-- C3: in every reachable state (so in particular starting from freshly
created swaps, whose counters are 0), after any `accept_swap` call every
stored record still satisfies `accepted_a ≤ amount_a` and
`accepted_b ≤ amount_b`; and a fill that passes the authorization and
expiry guards but would push either cumulative counter past its bound
returns `InsufficientBalance` and leaves the storage unchanged. -/
theorem C3_partial_fill_invariant (st : PF.TokenSwap) (env : PF.Env)
    (swap_id : Nat) (a b : PF.Balance) (hreach : PF.Reachable st) :
    (∀ k s, aGet (PF.accept_swap st env swap_id a b).state.swaps k = some s →
      PF.fillInv s) ∧
    (∀ s0, aGet st.swaps swap_id = some s0 →
      PF.acceptorForbidden s0 env.caller = false →
      env.block_number ≤ s0.expiration →
      (s0.amount_a < a + s0.accepted_a ∨ s0.amount_b < b + s0.accepted_b) →
      (PF.accept_swap st env swap_id a b).result = .err .InsufficientBalance ∧
      (PF.accept_swap st env swap_id a b).state = st) := by
  constructor
  · exact accept_preserves_inv st env swap_id a b (reachable_stateInv hreach)
  · intro s0 hget hforb hexp hover
    unfold PF.accept_swap
    rw [hget]
    simp [hforb, Nat.not_lt.mpr hexp, hover]

/-- C4 counterexample: in the single-shot variant, a fully successful
`accept_swap` run on a stored swap issues four external sub-calls, and
at none of them has the record been removed — the registry still
contains the targeted id at every external call, so the claim that the
record is removed before any external call fails on this input. -/
theorem C4_counterexample :
    ((SS.accept_swap wStS wEnvS 0).calls.all
      (fun c => !(aContains c.registry 0))) = false ∧
    (SS.accept_swap wStS wEnvS 0).calls.length = 4 ∧
    (SS.accept_swap wStS wEnvS 0).result = .ok () := by
  decide

/-- C4 amended: in the single-shot variant, `accept_swap` keeps the
targeted record in the registry through every external sub-call it
issues (each call sees the pre-call registry), and only after the
external calls, on the success path, is the record removed. -/
theorem C4_registry_order (st : SS.State) (env : SS.Env) (swap_id : Nat)
    (s : SS.Swap) (hget : aGet st.swaps swap_id = some s) :
    ((SS.accept_swap st env swap_id).calls.all
      (fun c => aContains c.registry swap_id)) = true ∧
    ((SS.accept_swap st env swap_id).result = .ok () →
      (SS.accept_swap st env swap_id).state.swaps =
        aRemove st.swaps swap_id) := by
  unfold SS.accept_swap
  rw [hget]
  dsimp only
  split_ifs with h1 h2 h3 <;> simp [aContains, hget]

/-- C10: in the single-shot variant, a `balance_of` sub-call that fails
to execute is consumed by `unwrap_or_default()` as a balance of 0, so
with any positive required amount both `create_swap` and `accept_swap`
abort with the insufficient-balance assertion and leave the storage
unchanged; moreover `create_swap` behaves identically whether the query
fails or genuinely reports 0. -/
theorem C10_balance_default_zero (st : SS.State) (env : SS.Env)
    (ta tb : SS.AccountId) (aa ab : SS.Balance) (dur : Nat)
    (swap_id : Nat) (s : SS.Swap)
    (hfa : env.balance_of ta env.caller = none)
    (hpa : 0 < aa)
    (hget : aGet st.swaps swap_id = some s)
    (hfb : env.balance_of s.token_b env.caller = none)
    (hpb : 0 < s.amount_b) :
    (SS.create_swap st env ta tb aa ab dur).result =
      .panicked "Insufficient balance for token A" ∧
    (SS.create_swap st env ta tb aa ab dur).state = st ∧
    (SS.accept_swap st env swap_id).result =
      .panicked "Insufficient balance for token B" ∧
    (SS.accept_swap st env swap_id).state = st ∧
    SS.create_swap st env ta tb aa ab dur =
      SS.create_swap st
        { env with
          balance_of := fun t acct =>
            if t = ta ∧ acct = env.caller then some 0
            else env.balance_of t acct } ta tb aa ab dur := by
  refine ⟨?_, ?_, ?_, ?_, ?_⟩
  · unfold SS.create_swap; rw [hfa]; simp [hpa]
  · unfold SS.create_swap; rw [hfa]; simp [hpa]
  · unfold SS.accept_swap; rw [hget]; simp [hfb, hpb]
  · unfold SS.accept_swap; rw [hget]; simp [hfb, hpb]
  · unfold SS.create_swap
    rw [hfa]
    simp

/-- C1: custody flow on the concrete scenario — creation does pull 50 of
token 2 from creator 1 into the contract's own account 9, but the
disposal paths never move it out again: `delete_swap` issues no transfer
at all, and `accept_swap` moves token 2 from the acceptor (account 4) to
the creator, never from the contract's account 9, so the custodied
amount is stranded in the contract. -/
theorem C1_custody_code_bug :
    wCreate.result = .ok 0 ∧
    wCreate.transfers = [⟨2, 1, 9, 50⟩] ∧
    wDelete.result = .ok () ∧
    wDelete.transfers = [] ∧
    wAccept.result = .ok () ∧
    wAccept.transfers = [⟨2, 4, 1, 50⟩, ⟨3, 4, 1, 100⟩] := by
  decide

/-- C2: on the concrete scenario, `delete_swap` by the creator succeeds,
removes the record, emits the deletion event and fails `SwapNotFound`
when repeated — but it transfers nothing back to the creator (its
transfer list is empty), contradicting the claimed escrow return. -/
theorem C2_delete_swap_code_bug :
    wDelete.result = .ok () ∧
    wDelete.transfers = [] ∧
    aGet wDelete.state.swaps 0 = none ∧
    wDelete.events = [.SwapDeleted 0] ∧
    (PF.delete_swap wDelete.state wEnvC 0).result = .err .SwapNotFound := by
  decide

/-- Witness for C3: the state holding the freshly created swap 0 is
reachable; its record satisfies the fill bounds, and the over-bound fill
(60 of token A against the remaining 50) fails `InsufficientBalance`
leaving the storage unchanged. -/
theorem C3_witness :
    PF.fillInv ⟨1, 2, 3, 50, 100, 10, 0, 0, none⟩ ∧
    (PF.accept_swap wSt1 wEnvA 0 60 0).result = .err .InsufficientBalance ∧
    (PF.accept_swap wSt1 wEnvA 0 60 0).state = wSt1 := by
  have hr : PF.Reachable wSt1 :=
    PF.Reachable.create wSt0 wEnvC 2 3 50 100 10 none (PF.Reachable.init 1)
  have h := C3_partial_fill_invariant wSt1 wEnvA 0 60 0 hr
  have h2 := h.2 ⟨1, 2, 3, 50, 100, 10, 0, 0, none⟩ (by decide) (by decide)
    (by decide) (Or.inl (by decide))
  exact ⟨h.1 0 ⟨1, 2, 3, 50, 100, 10, 0, 0, none⟩ (by decide), h2.1, h2.2⟩

/-- Witness for C4's amended ordering property on the concrete
single-shot scenario. -/
theorem C4_witness :
    ((SS.accept_swap wStS wEnvS 0).calls.all
      (fun c => aContains c.registry 0)) = true ∧
    (SS.accept_swap wStS wEnvS 0).state.swaps = aRemove wStS.swaps 0 := by
  have h := C4_registry_order wStS wEnvS 0 ⟨1, 2, 3, 50, 100, 10⟩ (by decide)
  exact ⟨h.1, h.2 (by decide)⟩

/-- Witness for C5: with a queried balance of 30 against a requested 50,
creation fails `InsufficientBalance` with no state change and no
transfer. -/
theorem C5_witness :
    (PF.create_swap wSt0 wEnvPoor 2 3 50 100 10 none).result =
      .err .InsufficientBalance ∧
    (PF.create_swap wSt0 wEnvPoor 2 3 50 100 10 none).state = wSt0 ∧
    (PF.create_swap wSt0 wEnvPoor 2 3 50 100 10 none).transfers = [] := by
  have h := C5_create_insufficient_balance wSt0 wEnvPoor 2 3 50 100 10 none 30
    rfl rfl (by decide)
  exact ⟨h.1, h.2.1, h.2.2⟩

/-- Witness for C6: the concrete creation returns id 0 with the counter
going 0 to 1 and expiration 0 + 10; a duration of `2 ^ 32` at block 0
makes the expiration sum overflow u32 and the call fails with the typed
`CallFailed`. -/
theorem C6_witness :
    ((0 : Nat) = wSt0.swap_count ∧
      (PF.create_swap wSt0 wEnvC 2 3 50 100 10 none).state.swap_count =
        wSt0.swap_count + 1 ∧
      aGet (PF.create_swap wSt0 wEnvC 2 3 50 100 10 none).state.swaps 0 =
        some ⟨1, 2, 3, 50, 100, 10, 0, 0, none⟩) ∧
    (PF.create_swap wSt0 wEnvC 2 3 50 100 (2 ^ 32) none).result =
      .err .CallFailed := by
  constructor
  · exact (C6_create_count_and_expiration wSt0 wEnvC 2 3 50 100 10 none rfl).1
      0 (by decide)
  · exact (C6_create_count_and_expiration wSt0 wEnvC 2 3 50 100 (2 ^ 32) none
      rfl).2 1000 1000 rfl (by decide) rfl (by decide) rfl (by decide)

/-- Witness for C7: a dispatch-failing balance query surfaces
`CallFailed`; a rejected transfer surfaces `TransferFailed`. -/
theorem C7_witness :
    PF.get_balance wEnvMix 2 1 = .err .CallFailed ∧
    PF.transfer_token wEnvMix 2 1 9 5 = .err .TransferFailed := by
  exact ⟨(C7_gateway_error_mapping wEnvMix 2 1 1 9 5).1 rfl,
    (C7_gateway_error_mapping wEnvMix 2 1 1 9 5).2.2.2.2.2.1 rfl⟩

/-- Witness for C8: with delegate 5 configured and a forwarding call
that cannot be dispatched, creation fails `DelegateFailed` and the local
storage and transfer list are untouched. -/
theorem C8_witness :
    (PF.create_swap wStD wEnvC 2 3 50 100 10 none).result =
      .err .DelegateFailed ∧
    (PF.create_swap wStD wEnvC 2 3 50 100 10 none).state = wStD ∧
    (PF.create_swap wStD wEnvC 2 3 50 100 10 none).transfers = [] := by
  have h := C8_delegate_forwarding wStD wEnvC 2 3 50 100 10 none 5 rfl
  exact ⟨h.2.2.2.1 rfl, h.1, h.2.1⟩

/-- Witness for C9: a fill whose first transfer leg succeeds (token 2)
and whose second leg is rejected (token 3) fails `TransferFailed` and
leaves the storage exactly as before. -/
theorem C9_witness :
    (PF.accept_swap wSt1 wEnvHalf 0 50 100).result = .err .TransferFailed ∧
    (PF.accept_swap wSt1 wEnvHalf 0 50 100).state = wSt1 := by
  exact ⟨by decide,
    C9_accept_error_atomicity wSt1 wEnvHalf 0 50 100 .TransferFailed (by decide)⟩

/-- Witness for C10: with every balance query failing to execute, the
concrete creation and acceptance both abort with the insufficient-
balance assertions. -/
theorem C10_witness :
    (SS.create_swap wStS wEnvNoneBal 2 3 50 100 10).result =
      .panicked "Insufficient balance for token A" ∧
    (SS.accept_swap wStS wEnvNoneBal 0).result =
      .panicked "Insufficient balance for token B" := by
  have h := C10_balance_default_zero wStS wEnvNoneBal 2 3 50 100 10 0
    ⟨1, 2, 3, 50, 100, 10⟩ rfl (by decide) (by decide) rfl (by decide)
  exact ⟨h.1, h.2.2.1⟩
